import Mathlib

/-!
Shallow embedding of the tgpu core (FreeList, image-layout inference,
per-thread command pools, queue submission, swapchain acquire/present)
translated from the Rust sources, together with theorems settling the
specification claims about them.  Native calls (Vulkan) are modelled by
their visible effects; a Rust panic is modelled by an `Option` result
being `none`.
-/

/-- Embeds `GPUError` restricted to the `Vulkan(vk::Result)` constructor,
which is the only one the verified paths construct; the carried native
result code is an integer. -/
inductive GPUError where
  | vulkan (code : Int)
deriving DecidableEq

/-! Vulkan flag constants used by `ImageLayout::infer_stage_flags`
(image.rs), with their numeric bit values from the `ash` crate. -/

def PIPELINE_STAGE2_NONE : Nat := 0

def PIPELINE_STAGE2_ALL_COMMANDS : Nat := 0x10000

def PIPELINE_STAGE2_COMPUTE_SHADER : Nat := 0x800

def PIPELINE_STAGE2_FRAGMENT_SHADER : Nat := 0x80

def PIPELINE_STAGE2_COLOR_ATTACHMENT_OUTPUT : Nat := 0x400

def PIPELINE_STAGE2_TRANSFER : Nat := 0x1000

def PIPELINE_STAGE2_BOTTOM_OF_PIPE : Nat := 0x2000

def ACCESS2_NONE : Nat := 0

def ACCESS2_SHADER_READ : Nat := 0x20

def ACCESS2_SHADER_WRITE : Nat := 0x40

def ACCESS2_COLOR_ATTACHMENT_WRITE : Nat := 0x100

def ACCESS2_TRANSFER_WRITE : Nat := 0x1000

/-- Embeds the `ImageLayout` enum from image.rs; the `Custom` payload is
the raw `vk::ImageLayout` value. -/
inductive ImageLayout where
  | undefined
  | unified
  | general
  | compute
  | fragment
  | color
  | transferDst
  | present
  | custom (layout : Nat)
deriving DecidableEq

/-- Embeds `ImageLayout::infer_stage_flags` from image.rs, returning the
(stage, access) pair per variant.  The Rust function panics on `Custom`
(it can never return flags there); that panic is modelled as `none`. -/
def ImageLayout.inferStageFlags : ImageLayout → Option (Nat × Nat)
  | .undefined => some (PIPELINE_STAGE2_NONE, ACCESS2_NONE)
  | .unified => some (PIPELINE_STAGE2_ALL_COMMANDS, ACCESS2_NONE)
  | .general =>
      some (PIPELINE_STAGE2_ALL_COMMANDS, ACCESS2_SHADER_READ ||| ACCESS2_SHADER_WRITE)
  | .compute =>
      some (PIPELINE_STAGE2_COMPUTE_SHADER, ACCESS2_SHADER_READ ||| ACCESS2_SHADER_WRITE)
  | .fragment => some (PIPELINE_STAGE2_FRAGMENT_SHADER, ACCESS2_SHADER_READ)
  | .color => some (PIPELINE_STAGE2_COLOR_ATTACHMENT_OUTPUT, ACCESS2_COLOR_ATTACHMENT_WRITE)
  | .transferDst => some (PIPELINE_STAGE2_TRANSFER, ACCESS2_TRANSFER_WRITE)
  | .present => some (PIPELINE_STAGE2_BOTTOM_OF_PIPE, ACCESS2_NONE)
  | .custom _ => none

/-- Embeds the numeric `vk::ImageLayout` values produced by the
`From<ImageLayout> for vk::ImageLayout` impl in image.rs; the `Unified`
arm is `unimplemented!` in the source and is modelled as `none`. -/
def ImageLayout.toVk : ImageLayout → Option Nat
  | .undefined => some 0
  | .unified => none
  | .general => some 1
  | .compute => some 1
  | .fragment => some 5
  | .color => some 2
  | .transferDst => some 7
  | .present => some 1000001002
  | .custom layout => some layout

/-- Embeds the `ImageLayoutTransition` struct from image.rs: a logical
layout together with its pipeline-stage and access flags. -/
structure ImageLayoutTransition where
  layout : ImageLayout
  stage : Nat
  access : Nat
deriving DecidableEq

/-- Embeds `ImageLayoutTransition::new` from image.rs, which fills the
stage/access fields from `infer_stage_flags`; `none` models the panic
inherited from `infer_stage_flags` on a `Custom` layout. -/
def ImageLayoutTransition.new (layout : ImageLayout) : Option ImageLayoutTransition :=
  (layout.inferStageFlags).map (fun sa => { layout := layout, stage := sa.1, access := sa.2 })

/-- Embeds `ImageLayoutTransition::custom` from image.rs: the caller
supplies the raw layout and the stage/access flags explicitly. -/
def ImageLayoutTransition.customTransition (layout stage access : Nat) : ImageLayoutTransition :=
  { layout := ImageLayout.custom layout, stage := stage, access := access }

/-- Embeds the `ImageTransition` struct from image.rs.  Ranges are kept
as (start, end) pairs; the optional queue-ownership transfer carries the
two family indices read from the queues in the source. -/
structure ImageTransition where
  from_ : ImageLayoutTransition
  to_ : ImageLayoutTransition
  aspect : Nat
  mips : Nat × Nat
  layers : Nat × Nat
  queue : Option (Nat × Nat)
  dependency : Nat
deriving DecidableEq

/-- The fields of the `vk::ImageMemoryBarrier2` that
`CommandRecorderImpl::image_transition` (command.rs) records. -/
structure ImageMemoryBarrier2 where
  oldLayout : Nat
  srcStageMask : Nat
  srcAccessMask : Nat
  newLayout : Nat
  dstStageMask : Nat
  dstAccessMask : Nat
  aspectMask : Nat
  baseMipLevel : Nat
  levelCount : Nat
  baseArrayLayer : Nat
  layerCount : Nat
  srcQueueFamilyIndex : Nat
  dstQueueFamilyIndex : Nat
deriving DecidableEq

/-- Embeds the barrier computation of
`CommandRecorderImpl::image_transition` from command.rs.  The source
reads `(src_stage, src_access)` from `transition.from`, `dst_stage` from
`transition.to`, and `dst_access` from `transition.from.access` (the
actual text of command.rs line 169); the layout conversions go through
`ImageLayout::toVk`, whose `Unified` panic propagates as `none`.  Queue
family indices default to 0 (the zero-initialised `vk` default) unless a
queue-ownership pair is given. -/
def imageTransitionBarrier (t : ImageTransition) : Option ImageMemoryBarrier2 :=
  match t.from_.layout.toVk, t.to_.layout.toVk with
  | some oldLayout, some newLayout =>
      let srcStage := t.from_.stage
      let srcAccess := t.from_.access
      let dstStage := t.to_.stage
      let dstAccess := t.from_.access
      let families := match t.queue with
        | none => (0, 0)
        | some fams => fams
      some
        { oldLayout := oldLayout
          srcStageMask := srcStage
          srcAccessMask := srcAccess
          newLayout := newLayout
          dstStageMask := dstStage
          dstAccessMask := dstAccess
          aspectMask := t.aspect
          baseMipLevel := t.mips.1
          levelCount := t.mips.2 - t.mips.1
          baseArrayLayer := t.layers.1
          layerCount := t.layers.2 - t.layers.1
          srcQueueFamilyIndex := families.1
          dstQueueFamilyIndex := families.2 }
  | _, _ => none

/-- Embeds the state guarded by the mutex inside `FreeList<T>`
(freelist.rs): the slot vector and the queue of freed indices.  The
`VecDeque` is a list whose head is the front (`pop_front` takes the
head, `push_back` appends). -/
structure FreeList (T : Type) where
  data : List (Option T)
  free : List Nat
deriving DecidableEq

/-- Embeds `FreeList::new`. -/
def FreeList.new (T : Type) : FreeList T :=
  { data := [], free := [] }

/-- Embeds `FreeList::insert` from freelist.rs: reuse the front of the
freed-index queue if any, otherwise append a new slot. -/
def FreeList.insert {T : Type} (s : FreeList T) (value : T) : FreeList T × Nat :=
  match s.free with
  | idx :: rest => ({ data := s.data.set idx (some value), free := rest }, idx)
  | [] => ({ data := s.data ++ [some value], free := [] }, s.data.length)

/-- Embeds `FreeList::remove` from freelist.rs: out-of-bounds or empty
slots yield `none`; a removed index is pushed to the back of the freed
queue. -/
def FreeList.remove {T : Type} (s : FreeList T) (idx : Nat) : FreeList T × Option T :=
  if s.data.length ≤ idx then
    (s, none)
  else
    match s.data.getD idx none with
    | some value =>
        ({ data := s.data.set idx none, free := s.free ++ [idx] }, some value)
    | none => (s, none)

/-- Embeds `FreeList::contains` from freelist.rs. -/
def FreeList.containsIdx {T : Type} (s : FreeList T) (idx : Nat) : Bool :=
  (s.data.getD idx none).isSome

/-- Embeds `CommandBufferImpl` from command.rs: the native handle plus
the shared submission-index cell (the cell content is inlined as a
plain field, since the embedding passes states explicitly). -/
structure CommandBufferImpl where
  handle : Nat
  submission : Nat
deriving DecidableEq

/-- Embeds `DroppedCommandBuffer` from command.rs: a retired buffer
handle tagged with the submission index it last carried. -/
structure DroppedCommandBuffer where
  handle : Nat
  submission : Nat
deriving DecidableEq

/-- Embeds the `ready`/`dropped` lists of `ThreadCommandPool` from
command.rs (the native pool handle and device are untracked native
resources).  Both `Vec`s are lists whose last element is the top
(`push` appends, `pop` removes the last element). -/
structure ThreadCommandPool where
  ready : List CommandBufferImpl
  dropped : List DroppedCommandBuffer
deriving DecidableEq

/-- Vec::pop — removes and returns the last element of a vector. -/
def vecPop {T : Type} (l : List T) : Option (T × List T) :=
  match l.reverse with
  | [] => none
  | x :: rest => some (x, rest.reverse)

/-- Embeds `ThreadCommandPool::get` from command.rs.  An extra `fresh`
counter stands for the native allocator: when `ready` is empty the
source allocates a batch of five buffers, pops the last one to return
and stashes the remaining four in `ready`, each created with submission
cell 0; the five fresh native handles are `fresh, ..., fresh + 4` and
the popped (returned) one is the last, `fresh + 4`. -/
def ThreadCommandPool.get (pool : ThreadCommandPool) (fresh : Nat) :
    CommandBufferImpl × ThreadCommandPool × Nat :=
  match vecPop pool.ready with
  | some bufferRest => (bufferRest.1, { pool with ready := bufferRest.2 }, fresh)
  | none =>
      ( { handle := fresh + 4, submission := 0 },
        { pool with ready := pool.ready ++
            [ { handle := fresh, submission := 0 },
              { handle := fresh + 1, submission := 0 },
              { handle := fresh + 2, submission := 0 },
              { handle := fresh + 3, submission := 0 } ] },
        fresh + 5 )

/-- Embeds `ThreadCommandPool::retire` from command.rs: push the
dropped buffer onto the `dropped` list. -/
def ThreadCommandPool.retire (pool : ThreadCommandPool) (buffer : DroppedCommandBuffer) :
    ThreadCommandPool :=
  { pool with dropped := pool.dropped ++ [buffer] }

/-- Embeds `ThreadCommandPool::try_cleanup` from command.rs.  The
side-effecting `retain` closure is split into its two outcomes: the
retained entries are those on which the closure returns `true` (the
`else` branch of `if b.submission <= completed_index`), and `freeable`
collects, in order, the handles of the entries it drops.  When any are
freeable: if `ready.len() < 10` every freeable buffer is reset
(submission cell back to 0) and appended to `ready`; otherwise all of
them are freed natively — the second component returns the natively
freed handles. -/
def ThreadCommandPool.tryCleanup (pool : ThreadCommandPool) (completedIndex : Nat) :
    ThreadCommandPool × List Nat :=
  let freeable :=
    (pool.dropped.filter (fun b => b.submission ≤ completedIndex)).map
      (fun b => b.handle)
  let retained :=
    pool.dropped.filter (fun b => if b.submission ≤ completedIndex then false else true)
  if freeable.isEmpty then
    ({ pool with dropped := retained }, [])
  else if pool.ready.length < 10 then
    ({ pool with
        dropped := retained,
        ready := pool.ready ++ freeable.map (fun h => { handle := h, submission := 0 }) },
      [])
  else
    ({ pool with dropped := retained }, freeable)

/-- The per-thread pool registry of `CommandPools` (command.rs): an
association list from thread id to pool, standing for the
`HashMap<ThreadId, Rc<ThreadCommandPool>>`. -/
abbrev PoolMap : Type := List (Nat × ThreadCommandPool)

/-- Lookup of the calling thread's pool in the registry,
`pools.get(&thread_id)`. -/
def lookupPool (tid : Nat) (pools : PoolMap) : Option ThreadCommandPool :=
  (List.find? (fun e => e.1 == tid) pools).map (fun e => e.2)

/-- In-place update of one thread's pool in the registry (the source
mutates the `Rc`-shared pool through `RefCell`s). -/
def updatePool (tid : Nat) (pool : ThreadCommandPool) (pools : PoolMap) : PoolMap :=
  pools.map (fun e => if e.1 == tid then (e.1, pool) else e)

/-- Embeds `CommandPools::try_cleanup` from command.rs: look up the
current thread's pool and clean it.  The source calls
`pools.get(&thread_id).unwrap()`, so a thread with no pool entry
panics; that panic is modelled as `none`. -/
def CommandPools.tryCleanup (pools : PoolMap) (tid : Nat) (completedIndex : Nat) :
    Option (PoolMap × List Nat) :=
  match lookupPool tid pools with
  | none => none
  | some pool =>
      let r := pool.tryCleanup completedIndex
      some (updatePool tid r.1 pools, r.2)

/-- Embeds the `SubmitInfo` struct from command.rs, with native handles
already extracted the way `Queue::submit` extracts them: binary wait
semaphores with their stage flags, timeline waits with value and stage,
binary signal semaphores, and timeline signals with value. -/
structure SubmitInfo where
  records : List CommandBufferImpl
  waitBinary : List (Nat × Nat)
  waitTimeline : List (Nat × Nat × Nat)
  signalBinary : List Nat
  signalTimeline : List (Nat × Nat)
deriving DecidableEq

/-- Embeds `SubmitInfo::default`. -/
def SubmitInfo.defaultInfo : SubmitInfo :=
  { records := [], waitBinary := [], waitTimeline := [], signalBinary := [],
    signalTimeline := [] }

instance {e a : Type} [DecidableEq e] [DecidableEq a] : DecidableEq (Except e a) := fun x y =>
  match x, y with
  | Except.ok v, Except.ok w =>
      if h : v = w then Decidable.isTrue (by rw [h]) else Decidable.isFalse (by simp [h])
  | Except.error v, Except.error w =>
      if h : v = w then Decidable.isTrue (by rw [h]) else Decidable.isFalse (by simp [h])
  | Except.ok _, Except.error _ => Decidable.isFalse (by simp)
  | Except.error _, Except.ok _ => Decidable.isFalse (by simp)

/-- Everything `QueueImpl::submit` (command.rs) hands to the native
`queue_submit` call, plus its outputs: the updated pool registry, the
stamped command buffers, the merged wait/signal arrays, and the result
returned to the caller. -/
structure SubmitOutcome where
  pools : PoolMap
  stamped : List CommandBufferImpl
  waitSemaphores : List Nat
  waitStages : List Nat
  waitValues : List Nat
  signalSemaphores : List Nat
  signalValues : List Nat
  result : Except GPUError Nat
deriving DecidableEq

/-- Embeds `QueueImpl::submit` from command.rs.  `timelineValue` is the
value `timeline.get()` reads from the native timeline semaphore, and
`timelineSem` that semaphore's handle; `nativeSubmit` is the outcome of
the native `queue_submit` call (`none` for success, `some code` for a
native error, which the `?` operator turns into `Err(GPUError)`).  The
`pools.try_cleanup` panic for an unregistered thread propagates as
`none`. -/
def QueueImpl.submit (tid : Nat) (submissionIndex : Nat) (timelineSem : Nat)
    (timelineValue : Nat) (pools : PoolMap) (commandBuffers : List CommandBufferImpl)
    (waitBinary : List (Nat × Nat)) (waitTimeline : List (Nat × Nat × Nat))
    (signalBinary : List Nat) (signalTimeline : List (Nat × Nat))
    (nativeSubmit : Option Int) : Option SubmitOutcome :=
  match CommandPools.tryCleanup pools tid timelineValue with
  | none => none
  | some cleaned =>
      let stamped := commandBuffers.map (fun b => { b with submission := submissionIndex })
      let signalTimeline := signalTimeline ++ [(timelineSem, submissionIndex)]
      let waitSemaphores := waitBinary.map (fun w => w.1) ++ waitTimeline.map (fun w => w.1)
      let waitStages := waitBinary.map (fun w => w.2) ++ waitTimeline.map (fun w => w.2.2)
      let waitValues := waitBinary.map (fun _ => 0) ++ waitTimeline.map (fun w => w.2.1)
      let signalSemaphores := signalBinary ++ signalTimeline.map (fun sv => sv.1)
      let signalValues := signalBinary.map (fun _ => 0) ++ signalTimeline.map (fun sv => sv.2)
      let result := match nativeSubmit with
        | some code => Except.error (GPUError.vulkan code)
        | none => Except.ok submissionIndex
      some
        { pools := cleaned.1
          stamped := stamped
          waitSemaphores := waitSemaphores
          waitStages := waitStages
          waitValues := waitValues
          signalSemaphores := signalSemaphores
          signalValues := signalValues
          result := result }

/-- The queue state visible to the submission protocol: the pool
registry, the submission counter (created as `AtomicU64::new(0)` in
`Instance::request_device`, device.rs), the queue's timeline semaphore
handle, and the timeline's current native value (created with initial
value 0 in device.rs). -/
structure QueueState where
  pools : PoolMap
  submissionCounter : Nat
  timelineSem : Nat
  timelineValue : Nat
deriving DecidableEq

/-- The queue state as `Instance::request_device` (device.rs) creates
it: empty pool registry, submission counter 0, timeline value 0. -/
def QueueState.fresh (timelineSem : Nat) : QueueState :=
  { pools := [], submissionCounter := 0, timelineSem := timelineSem, timelineValue := 0 }

/-- Embeds `Queue::submit` from command.rs.  Under the queue lock the
submission counter is bumped with `fetch_add(1)`, whose return value
(the counter's previous value) becomes this call's submission index;
the call then delegates to `QueueImpl::submit` and `.unwrap()`s its
`Result` — a native submit error therefore panics, modelled as `none`,
as is the `try_cleanup` panic for a thread with no pool. -/
def Queue.submit (tid : Nat) (q : QueueState) (info : SubmitInfo)
    (nativeSubmit : Option Int) : Option (QueueState × Nat) :=
  let submissionIndex := q.submissionCounter
  let counter := q.submissionCounter + 1
  match QueueImpl.submit tid submissionIndex q.timelineSem q.timelineValue q.pools
      info.records info.waitBinary info.waitTimeline info.signalBinary
      info.signalTimeline nativeSubmit with
  | none => none
  | some outcome =>
      match outcome.result with
      | Except.error _ => none
      | Except.ok idx =>
          some ({ q with pools := outcome.pools, submissionCounter := counter }, idx)

/-- Runs `n` successive `Queue::submit` calls with an empty
`SubmitInfo` and a succeeding native submit, collecting the returned
submission indices in call order. -/
def runSubmits (tid : Nat) (q : QueueState) : Nat → Option (QueueState × List Nat)
  | 0 => some (q, [])
  | n + 1 =>
      match Queue.submit tid q SubmitInfo.defaultInfo none with
      | none => none
      | some r =>
          match runSubmits tid r.1 n with
          | none => none
          | some rs => some (rs.1, r.2 :: rs.2)

/-- Embeds the `Frame` struct from swapchain.rs. -/
structure Frame where
  index : Nat
  suboptimal : Bool
deriving DecidableEq

/-- The flight-slot state of `SwapchainImpl` (swapchain.rs) relevant to
the acquire/present protocol: the three parallel sync arrays hold the
native handles, `frame` is the rotating flight-slot index, and
`maxFlight` is `preferred_image_count`. -/
structure SwapchainState where
  available : List Nat
  finished : List Nat
  flight : List Nat
  frame : Nat
  maxFlight : Nat
deriving DecidableEq

/-- Outcome of the native `acquire_next_image` call consumed by
`SwapchainImpl::acquire_next`. -/
inductive AcquireResult where
  | success (index : Nat) (suboptimal : Bool)
  | outOfDate
  | otherError (code : Int)
deriving DecidableEq

/-- Outcome of the native `queue_present` call consumed by
`SwapchainImpl::present`. -/
inductive PresentResult where
  | success (suboptimal : Bool)
  | outOfDate
  | otherError (code : Int)
deriving DecidableEq

/-- Embeds the result mapping of `SwapchainImpl::acquire_next` from
swapchain.rs (the fence wait/reset and the signal-on-ready semaphore
are native effects outside the state model): a successful native
acquire yields the image index with its suboptimal flag,
`ERROR_OUT_OF_DATE_KHR` yields `Ok` with the degenerate frame with
index 0 and suboptimal false, and any other native error becomes
`Err(GPUError::Vulkan(e))`. -/
def SwapchainImpl.acquireNext (native : AcquireResult) : Except GPUError Frame :=
  match native with
  | AcquireResult.success index suboptimal =>
      Except.ok { index := index, suboptimal := suboptimal }
  | AcquireResult.outOfDate => Except.ok { index := 0, suboptimal := false }
  | AcquireResult.otherError code => Except.error (GPUError.vulkan code)

/-- Embeds `SwapchainImpl::present` from swapchain.rs: on a successful
native present the returned recreation flag is the native suboptimal
report ORed with the frame's suboptimal flag; `ERROR_OUT_OF_DATE_KHR`
yields `true`; any other native error returns early as
`Err(GPUError::Vulkan(e))` (without touching `frame`); on the `Ok`
paths the flight-slot index advances to `(frame + 1) % max_flight`. -/
def SwapchainImpl.present (s : SwapchainState) (frame : Frame) (native : PresentResult) :
    Except GPUError (Bool × SwapchainState) :=
  match native with
  | PresentResult.success suboptimal =>
      Except.ok (suboptimal || frame.suboptimal,
        { s with frame := (s.frame + 1) % s.maxFlight })
  | PresentResult.outOfDate =>
      Except.ok (true, { s with frame := (s.frame + 1) % s.maxFlight })
  | PresentResult.otherError code => Except.error (GPUError.vulkan code)

/-- Whether the presentation engine itself reported suboptimal or
out-of-date in the native present result; written from the
specification's words to state the claim about the recreation flag. -/
def presentEngineFlagged : PresentResult → Bool
  | PresentResult.success suboptimal => suboptimal
  | PresentResult.outOfDate => true
  | PresentResult.otherError _ => false

/-- One operation of a `ThreadCommandPool` history: obtain a buffer,
retire a dropped buffer, or run a cleanup. -/
inductive PoolOp where
  | get
  | retire (handle : Nat) (submission : Nat)
  | cleanup (completedIndex : Nat)
deriving DecidableEq

/-- One step of a `ThreadCommandPool` history over the pool state and
the native allocator's fresh-handle counter. -/
def stepPoolOp (s : ThreadCommandPool × Nat) : PoolOp → ThreadCommandPool × Nat
  | PoolOp.get =>
      let r := ThreadCommandPool.get s.1 s.2
      (r.2.1, r.2.2)
  | PoolOp.retire handle submission =>
      (ThreadCommandPool.retire s.1 { handle := handle, submission := submission }, s.2)
  | PoolOp.cleanup completedIndex =>
      ((ThreadCommandPool.tryCleanup s.1 completedIndex).1, s.2)

/-- The pool as `CommandPools::get` (command.rs) lazily creates it:
both lists empty. -/
def ThreadCommandPool.empty : ThreadCommandPool :=
  { ready := [], dropped := [] }

/-- Runs a `ThreadCommandPool` history from the freshly created pool. -/
def runPoolOps (ops : List PoolOp) : ThreadCommandPool × Nat :=
  ops.foldl stepPoolOp (ThreadCommandPool.empty, 0)

/-- A concrete pool history: eleven `get`s (triggering three batch
allocations of five), the eleven obtained buffers retired with their
stamped submission index 0 (never submitted, exactly as a dropped
recorder retires them), then one cleanup at completed index 0.  The
retired handles are the ones `get` returns, in order. -/
def overfillOps : List PoolOp :=
  [ PoolOp.get, PoolOp.get, PoolOp.get, PoolOp.get, PoolOp.get,
    PoolOp.get, PoolOp.get, PoolOp.get, PoolOp.get, PoolOp.get, PoolOp.get,
    PoolOp.retire 4 0, PoolOp.retire 3 0, PoolOp.retire 2 0, PoolOp.retire 1 0,
    PoolOp.retire 0 0, PoolOp.retire 9 0, PoolOp.retire 8 0, PoolOp.retire 7 0,
    PoolOp.retire 6 0, PoolOp.retire 5 0, PoolOp.retire 14 0,
    PoolOp.cleanup 0 ]

/-- A queue state after one thread (id 0) has called `Queue::record`,
so its pool is registered; counters as `request_device` creates them. -/
def demoQueue : QueueState :=
  { pools := [(0, ThreadCommandPool.empty)], submissionCounter := 0,
    timelineSem := 7, timelineValue := 0 }

/-- A pool with ten ready buffers and one completed dropped buffer,
used to witness the capacity check of `try_cleanup`. -/
def fullReadyPool : ThreadCommandPool :=
  { ready :=
      [ { handle := 20, submission := 0 }, { handle := 21, submission := 0 },
        { handle := 22, submission := 0 }, { handle := 23, submission := 0 },
        { handle := 24, submission := 0 }, { handle := 25, submission := 0 },
        { handle := 26, submission := 0 }, { handle := 27, submission := 0 },
        { handle := 28, submission := 0 }, { handle := 29, submission := 0 } ],
    dropped := [ { handle := 30, submission := 3 } ] }

/-- A free list holding three values of which slots 2 and then 0 were
removed, in that order, leaving the freed-index queue `[2, 0]`. -/
def freelistAfterRemovals : FreeList Nat :=
  (FreeList.remove (FreeList.remove
    ((FreeList.insert ((FreeList.insert ((FreeList.insert (FreeList.new Nat) 10).1) 11).1) 12).1)
    2).1 0).1

/-- A swapchain state with three flight slots currently at slot 0. -/
def demoSwapchain : SwapchainState :=
  { available := [100, 101, 102], finished := [110, 111, 112],
    flight := [120, 121, 122], frame := 0, maxFlight := 3 }

/-- The concrete transition used to exhibit the destination-access slip
in `image_transition`: from `Undefined` to `Color`, both sides built by
`ImageLayoutTransition::new`. -/
def undefinedToColor : Option ImageTransition :=
  match ImageLayoutTransition.new ImageLayout.undefined,
      ImageLayoutTransition.new ImageLayout.color with
  | some f, some t =>
      some { from_ := f, to_ := t, aspect := 1, mips := (0, 1), layers := (0, 1),
             queue := none, dependency := 0 }
  | _, _ => none

theorem filter_keep_eq_lt (completedIndex : Nat) (l : List DroppedCommandBuffer) :
    l.filter (fun b => if b.submission ≤ completedIndex then false else true)
      = l.filter (fun b => decide (completedIndex < b.submission)) := by
  apply List.filter_congr
  intro b _
  by_cases h : b.submission ≤ completedIndex
  · simp [h, Nat.not_lt.mpr h]
  · simp [h, Nat.lt_of_not_le h]

/-- C2: `try_cleanup(C)` removes from `dropped` exactly the buffers
stamped with a submission index at most `C` — those and only those are
handed onward (reset into `ready` or natively freed) — while every
buffer stamped above `C` stays in `dropped` untouched and the
pre-existing `ready` entries are preserved in place. -/
theorem tryCleanup_reclaims_exactly_completed (pool : ThreadCommandPool)
    (completedIndex : Nat) :
    (pool.tryCleanup completedIndex).1.dropped
        = pool.dropped.filter (fun b => decide (completedIndex < b.submission))
    ∧ (pool.tryCleanup completedIndex).1.ready.take pool.ready.length = pool.ready
    ∧ ((pool.tryCleanup completedIndex).1.ready.drop pool.ready.length).map
          (fun b => b.handle) ++ (pool.tryCleanup completedIndex).2
        = (pool.dropped.filter (fun b => b.submission ≤ completedIndex)).map
            (fun b => b.handle) := by
  simp only [ThreadCommandPool.tryCleanup]
  split_ifs with he hlen
  · have he2 : (pool.dropped.filter (fun b => b.submission ≤ completedIndex)).map
        (fun b => b.handle) = [] := by
      simpa [List.isEmpty_iff] using he
    refine ⟨filter_keep_eq_lt completedIndex pool.dropped, List.take_length _, ?_⟩
    simp [he2, List.drop_length]
  · refine ⟨filter_keep_eq_lt completedIndex pool.dropped, List.take_left _ _, ?_⟩
    simp [List.drop_left, List.map_map, Function.comp]
  · exact ⟨filter_keep_eq_lt completedIndex pool.dropped, List.take_length _, by
      simp [List.drop_length]⟩

/-- C3 (amended): after `try_cleanup`, the `ready` list length is at
most the maximum of its previous length and 9 plus the number of
buffers reclaimed in this call — the capacity test `ready.len() < 10`
is made once, before all reclaimed buffers are appended, so `ready` can
exceed 10; when `ready` already holds at least 10 buffers it is left
unchanged and the completed buffers are freed instead. -/
theorem tryCleanup_ready_bound (pool : ThreadCommandPool) (completedIndex : Nat) :
    (pool.tryCleanup completedIndex).1.ready.length
        ≤ max pool.ready.length
            (9 + (pool.dropped.filter (fun b => b.submission ≤ completedIndex)).length)
    ∧ (10 ≤ pool.ready.length → (pool.tryCleanup completedIndex).1.ready = pool.ready) := by
  simp only [ThreadCommandPool.tryCleanup]
  split_ifs with he hlen
  · exact ⟨Nat.le_max_left _ _, fun _ => rfl⟩
  · constructor
    · simp only [List.length_append, List.length_map]
      have h9 : pool.ready.length ≤ 9 := Nat.lt_succ_iff.mp hlen
      exact le_max_of_le_right (Nat.add_le_add_right h9 _)
    · intro h
      exact absurd h (Nat.not_le.mpr hlen)
  · exact ⟨Nat.le_max_left _ _, fun _ => rfl⟩

/-- Witness for the amended C3 bound: a pool whose `ready` list already
holds ten buffers keeps it unchanged, the completed buffer being freed
instead of recycled. -/
theorem tryCleanup_ready_bound_witness :
    (ThreadCommandPool.tryCleanup fullReadyPool 5).1.ready = fullReadyPool.ready :=
  (tryCleanup_ready_bound fullReadyPool 5).2 (by decide)

/-- Counterexample to C3 as stated: a pool history of eleven `get`s,
eleven retires and one cleanup leaves fifteen buffers in `ready`,
exceeding the claimed bound of 10. -/
theorem overfill_ready_exceeds_ten :
    (runPoolOps overfillOps).1.ready.length = 15
    ∧ 10 < (runPoolOps overfillOps).1.ready.length := by decide

/-- C1 (code evaluated at the failing input): on a queue exactly as
`request_device` creates it (counter 0) whose thread has a registered
pool, three submits return the indices 0, 1, 2 — not 1, 2, 3 as
claimed — and the first submit signals the queue's timeline semaphore
with value 0, the timeline's own initial value. -/
theorem submission_indices_start_at_zero :
    (runSubmits 0 demoQueue 3).map Prod.snd = some [0, 1, 2]
    ∧ (runSubmits 0 demoQueue 3).map Prod.snd ≠ some [1, 2, 3]
    ∧ (QueueImpl.submit 0 demoQueue.submissionCounter demoQueue.timelineSem
          demoQueue.timelineValue demoQueue.pools [] [] [] [] [] none).map
        (fun o => o.signalValues) = some [0] := by decide

/-- C4 (code evaluated at the failing input): transitioning an image
from `Undefined` to `Color` with both sides built by
`ImageLayoutTransition::new` records a barrier whose destination stage
is the one inferred from the destination layout, but whose destination
access mask is the access inferred from the SOURCE layout (`NONE`)
instead of the destination layout's `COLOR_ATTACHMENT_WRITE`:
`image_transition` reads `transition.from.access` for `dst_access`. -/
theorem image_transition_dst_access_from_source :
    (undefinedToColor.bind imageTransitionBarrier).map (fun b => b.dstAccessMask)
        = some ACCESS2_NONE
    ∧ (undefinedToColor.bind imageTransitionBarrier).map (fun b => b.dstStageMask)
        = some PIPELINE_STAGE2_COLOR_ATTACHMENT_OUTPUT
    ∧ (undefinedToColor.bind imageTransitionBarrier).map (fun b => b.srcAccessMask)
        = some ACCESS2_NONE
    ∧ (ImageLayoutTransition.new ImageLayout.color).map (fun t => t.access)
        = some ACCESS2_COLOR_ATTACHMENT_WRITE
    ∧ ACCESS2_NONE ≠ ACCESS2_COLOR_ATTACHMENT_WRITE := by decide

/-- C5: `acquire_next` maps a native out-of-date report to `Ok` with
the degenerate frame (index 0, suboptimal false), propagates every
other native acquire error as `Err(GPUError::Vulkan)`, and passes a
successful acquire through unchanged. -/
theorem acquire_next_out_of_date_degenerate :
    SwapchainImpl.acquireNext AcquireResult.outOfDate
        = Except.ok { index := 0, suboptimal := false }
    ∧ (∀ code : Int, SwapchainImpl.acquireNext (AcquireResult.otherError code)
        = Except.error (GPUError.vulkan code))
    ∧ (∀ (index : Nat) (flagged : Bool),
        SwapchainImpl.acquireNext (AcquireResult.success index flagged)
          = Except.ok { index := index, suboptimal := flagged }) :=
  ⟨rfl, fun _ => rfl, fun _ _ => rfl⟩

/-- C6: whenever `present` returns `Ok`, the returned boolean is true
exactly when the presentation engine reported suboptimal or out-of-date
or the passed frame's suboptimal flag was set, and the flight-slot
index has advanced to `(frame + 1) % max_flight`. -/
theorem present_recreation_flag_and_advance (s : SwapchainState) (frame : Frame)
    (native : PresentResult) (flag : Bool) (s2 : SwapchainState)
    (h : SwapchainImpl.present s frame native = Except.ok (flag, s2)) :
    flag = (presentEngineFlagged native || frame.suboptimal)
    ∧ s2.frame = (s.frame + 1) % s.maxFlight := by
  cases native with
  | success sub =>
      simp only [SwapchainImpl.present, Except.ok.injEq, Prod.mk.injEq] at h
      obtain ⟨h1, h2⟩ := h
      subst h2
      exact ⟨h1.symm, rfl⟩
  | outOfDate =>
      simp only [SwapchainImpl.present, Except.ok.injEq, Prod.mk.injEq] at h
      obtain ⟨h1, h2⟩ := h
      subst h2
      simp [presentEngineFlagged, ← h1]
  | otherError code =>
      simp only [SwapchainImpl.present] at h
      exact absurd h (by simp)

/-- Witness for C6: presenting a non-suboptimal frame while the engine
reports suboptimal yields the recreation flag and advances slot 0 of
three to slot 1. -/
theorem present_recreation_flag_and_advance_witness :
    true = (presentEngineFlagged (PresentResult.success true)
        || (Frame.mk 0 false).suboptimal)
    ∧ ({ demoSwapchain with frame := 1 } : SwapchainState).frame
        = (demoSwapchain.frame + 1) % demoSwapchain.maxFlight :=
  present_recreation_flag_and_advance demoSwapchain (Frame.mk 0 false)
    (PresentResult.success true) true ({ demoSwapchain with frame := 1 }) (by decide)

/-- Counterexample to C7 as stated: on a native submit failure the
public `Queue::submit` does not return an error value — it `.unwrap()`s
the inner result, so the failure reaches the caller as a panic
(modelled as `none`). -/
theorem queue_submit_panics_on_native_error :
    Queue.submit 0 demoQueue SubmitInfo.defaultInfo (some (-4)) = none := by decide

/-- C7 (amended): `QueueImpl::submit` surfaces a native submit failure
as an `Err(GPUError::Vulkan)` value, with a single native call and no
retry; the public `Queue::submit` wrapper then unwraps that result,
turning the failure into a panic rather than an error value. -/
theorem queueimpl_submit_surfaces_error (q : QueueState) (tid : Nat) (info : SubmitInfo)
    (code : Int) (pool : ThreadCommandPool)
    (h : lookupPool tid q.pools = some pool) :
    (QueueImpl.submit tid q.submissionCounter q.timelineSem q.timelineValue q.pools
        info.records info.waitBinary info.waitTimeline info.signalBinary
        info.signalTimeline (some code)).map (fun o => o.result)
      = some (Except.error (GPUError.vulkan code))
    ∧ Queue.submit tid q info (some code) = none := by
  have hclean : CommandPools.tryCleanup q.pools tid q.timelineValue
      = some (updatePool tid ((pool.tryCleanup q.timelineValue).1) q.pools,
              (pool.tryCleanup q.timelineValue).2) := by
    simp only [CommandPools.tryCleanup, h]
  constructor
  · simp only [QueueImpl.submit, hclean, Option.map_some']
  · simp only [Queue.submit, QueueImpl.submit, hclean]

/-- Witness for the amended C7: a concrete queue with a registered pool
and a failing native submit. -/
theorem queueimpl_submit_surfaces_error_witness :
    (QueueImpl.submit 0 demoQueue.submissionCounter demoQueue.timelineSem
        demoQueue.timelineValue demoQueue.pools
        SubmitInfo.defaultInfo.records SubmitInfo.defaultInfo.waitBinary
        SubmitInfo.defaultInfo.waitTimeline SubmitInfo.defaultInfo.signalBinary
        SubmitInfo.defaultInfo.signalTimeline (some (-4))).map (fun o => o.result)
      = some (Except.error (GPUError.vulkan (-4)))
    ∧ Queue.submit 0 demoQueue SubmitInfo.defaultInfo (some (-4)) = none :=
  queueimpl_submit_surfaces_error demoQueue 0 SubmitInfo.defaultInfo (-4)
    ThreadCommandPool.empty (by decide)

/-- Counterexample to C8 as stated: after freeing slot 2 and then slot
0, slot 0 is the lowest previously-freed, not-yet-reused index, but
`insert` returns slot 2 — the front of the FIFO freed queue, not the
lowest index. -/
theorem freelist_insert_not_lowest_index :
    freelistAfterRemovals.free = [2, 0]
    ∧ FreeList.containsIdx freelistAfterRemovals 0 = false
    ∧ (FreeList.insert freelistAfterRemovals 99).2 = 2
    ∧ (2 : Nat) ≠ 0 := by decide

/-- C8 (amended): with at least one previously-freed, not-yet-reused
slot, `insert(value)` stores the value into the EARLIEST-freed such
index (the front of the FIFO freed queue) and returns that index; with
no freed slot available it appends a new slot and returns the old
length. -/
theorem freelist_insert_fifo {T : Type} (s : FreeList T) (value : T) :
    (s.free = [] → (s.insert value).2 = s.data.length
        ∧ (s.insert value).1.data = s.data ++ [some value]
        ∧ (s.insert value).1.free = [])
    ∧ (∀ (idx : Nat) (rest : List Nat), s.free = idx :: rest →
        (s.insert value).2 = idx
        ∧ (s.insert value).1.data = s.data.set idx (some value)
        ∧ (s.insert value).1.free = rest) := by
  constructor
  · intro h
    simp [FreeList.insert, h]
  · intro idx rest h
    simp [FreeList.insert, h]

/-- Witness for the amended C8: inserting into the list whose freed
queue is `[2, 0]` reuses slot 2 and leaves slot 0 queued. -/
theorem freelist_insert_fifo_witness :
    (FreeList.insert freelistAfterRemovals 99).2 = 2
    ∧ (FreeList.insert freelistAfterRemovals 99).1.data
        = freelistAfterRemovals.data.set 2 (some 99)
    ∧ (FreeList.insert freelistAfterRemovals 99).1.free = [0] :=
  (freelist_insert_fifo freelistAfterRemovals 99).2 2 [0] (by decide)

/-- C9: every non-`Custom` `ImageLayout` variant is mapped by
`infer_stage_flags` to a fixed (stage, access) pair determined only by
the variant, while `Custom` panics (modelled as `none`), never
silently yielding zeroed flags. -/
theorem infer_stage_flags_fixed_table :
    ImageLayout.inferStageFlags ImageLayout.undefined
        = some (PIPELINE_STAGE2_NONE, ACCESS2_NONE)
    ∧ ImageLayout.inferStageFlags ImageLayout.unified
        = some (PIPELINE_STAGE2_ALL_COMMANDS, ACCESS2_NONE)
    ∧ ImageLayout.inferStageFlags ImageLayout.general
        = some (PIPELINE_STAGE2_ALL_COMMANDS, ACCESS2_SHADER_READ ||| ACCESS2_SHADER_WRITE)
    ∧ ImageLayout.inferStageFlags ImageLayout.compute
        = some (PIPELINE_STAGE2_COMPUTE_SHADER, ACCESS2_SHADER_READ ||| ACCESS2_SHADER_WRITE)
    ∧ ImageLayout.inferStageFlags ImageLayout.fragment
        = some (PIPELINE_STAGE2_FRAGMENT_SHADER, ACCESS2_SHADER_READ)
    ∧ ImageLayout.inferStageFlags ImageLayout.color
        = some (PIPELINE_STAGE2_COLOR_ATTACHMENT_OUTPUT, ACCESS2_COLOR_ATTACHMENT_WRITE)
    ∧ ImageLayout.inferStageFlags ImageLayout.transferDst
        = some (PIPELINE_STAGE2_TRANSFER, ACCESS2_TRANSFER_WRITE)
    ∧ ImageLayout.inferStageFlags ImageLayout.present
        = some (PIPELINE_STAGE2_BOTTOM_OF_PIPE, ACCESS2_NONE)
    ∧ (∀ layout : Nat,
        ImageLayout.inferStageFlags (ImageLayout.custom layout) = none) :=
  ⟨rfl, rfl, rfl, rfl, rfl, rfl, rfl, rfl, fun _ => rfl⟩

/-- C10: when the calling thread has no entry in the pool registry —
it never called `Queue::record` on this queue — `CommandPools::
try_cleanup` panics on its `unwrap`, and therefore every
`Queue::submit` from such a thread panics as well (both modelled as
`none`). -/
theorem submit_panics_without_thread_pool (q : QueueState) (tid : Nat)
    (info : SubmitInfo) (nativeSubmit : Option Int) (completedIndex : Nat)
    (h : lookupPool tid q.pools = none) :
    CommandPools.tryCleanup q.pools tid completedIndex = none
    ∧ Queue.submit tid q info nativeSubmit = none := by
  have hclean : ∀ c : Nat, CommandPools.tryCleanup q.pools tid c = none := by
    intro c
    simp only [CommandPools.tryCleanup, h]
  refine ⟨hclean completedIndex, ?_⟩
  simp only [Queue.submit, QueueImpl.submit, hclean]

/-- Witness for C10: a freshly created queue has an empty pool
registry, so the very first submit from any thread panics. -/
theorem submit_panics_without_thread_pool_witness :
    CommandPools.tryCleanup (QueueState.fresh 7).pools 0 0 = none
    ∧ Queue.submit 0 (QueueState.fresh 7) SubmitInfo.defaultInfo none = none :=
  submit_panics_without_thread_pool (QueueState.fresh 7) 0 SubmitInfo.defaultInfo
    none 0 (by decide)
